import Mathlib

/-!
Verification of the geometry intelligent tutoring system (`src/app.py`).

Shallow embedding conventions:
* Python numbers (ints and floats) are modelled as exact rationals (`ℚ`);
  `math.pi` is the exact rational value of the IEEE-754 double Python uses.
* The Flask session's mutable `progress` dictionary becomes the `Progress`
  structure; route handlers become pure functions from the old state (plus the
  request payload) to a result and the new state.
* `random.uniform` draws are passed in as explicit rational arguments; the
  ranges the code draws from become the `drawsOk` predicate.
* Presentation-only data (problem text, hints, steps, AI tutor messages,
  colors, icons) is omitted: no claim mentions it and the AI message choice is
  random.
-/

set_option autoImplicit false

namespace GeoITS

/-- The four shape keys of `session['progress']['shapes']` (src/app.py
`init_progress`). -/
inductive Shape where
  | square
  | rectangle
  | triangle
  | circle
  deriving DecidableEq, Fintype

/-- The three difficulty levels (src/app.py `LEVELS`). -/
inductive Level where
  | beginner
  | intermediate
  | expert
  deriving DecidableEq, Fintype

/-- The fields of a `LEVELS[...]` entry that drive behaviour (name,
description, color and icon are presentation only). -/
structure LevelConfig where
  questions_required : ℕ
  pass_threshold : ℚ
  deriving DecidableEq

/-- src/app.py `LEVELS` (lines 20-45). -/
def LEVELS : Level → LevelConfig
  | .beginner => { questions_required := 5, pass_threshold := 6/10 }
  | .intermediate => { questions_required := 5, pass_threshold := 7/10 }
  | .expert => { questions_required := 5, pass_threshold := 8/10 }

/-- src/app.py line 47: `LEVEL_ORDER = ['beginner', 'intermediate', 'expert']`. -/
def LEVEL_ORDER : List Level := [.beginner, .intermediate, .expert]

/-- One entry of a level's `questions` list as appended by `update_progress`
(the `question` text field is omitted). -/
structure QuestionRecord where
  correct : Bool
  user_answer : ℚ
  correct_answer : ℚ
  deriving DecidableEq

/-- One per-level progress dictionary (`create_shape_progress`). -/
structure LevelData where
  unlocked : Bool
  attempts : ℕ
  correct : ℕ
  completed : Bool
  questions : List QuestionRecord
  deriving DecidableEq

/-- One per-shape progress dictionary (`create_shape_progress`). -/
structure ShapeProgress where
  current_level : Level
  beginner : LevelData
  intermediate : LevelData
  expert : LevelData
  mastered : Bool
  deriving DecidableEq

/-- One entry of the global `history` list. -/
structure HistEntry where
  shape : Shape
  level : Level
  correct : Bool
  deriving DecidableEq

/-- The whole `session['progress']` dictionary. -/
structure Progress where
  total_attempts : ℕ
  correct_answers : ℕ
  wrong_answers : ℕ
  square : ShapeProgress
  rectangle : ShapeProgress
  triangle : ShapeProgress
  circle : ShapeProgress
  history : List HistEntry
  deriving DecidableEq

/-- Dictionary lookup `sp['levels'][level]`. -/
def ShapeProgress.levels (sp : ShapeProgress) : Level → LevelData
  | .beginner => sp.beginner
  | .intermediate => sp.intermediate
  | .expert => sp.expert

/-- Dictionary assignment `sp['levels'][level] = d`. -/
def ShapeProgress.setLevel (sp : ShapeProgress) : Level → LevelData → ShapeProgress
  | .beginner, d => { sp with beginner := d }
  | .intermediate, d => { sp with intermediate := d }
  | .expert, d => { sp with expert := d }

/-- Dictionary lookup `progress['shapes'][shape]`. -/
def Progress.shapes (p : Progress) : Shape → ShapeProgress
  | .square => p.square
  | .rectangle => p.rectangle
  | .triangle => p.triangle
  | .circle => p.circle

/-- Dictionary assignment `progress['shapes'][shape] = sp`. -/
def Progress.setShape (p : Progress) : Shape → ShapeProgress → Progress
  | .square, sp => { p with square := sp }
  | .rectangle, sp => { p with rectangle := sp }
  | .triangle, sp => { p with triangle := sp }
  | .circle, sp => { p with circle := sp }

/-- src/app.py `create_shape_progress` (lines 119-129). -/
def create_shape_progress : ShapeProgress :=
  { current_level := .beginner
    beginner := { unlocked := true, attempts := 0, correct := 0, completed := false, questions := [] }
    intermediate := { unlocked := false, attempts := 0, correct := 0, completed := false, questions := [] }
    expert := { unlocked := false, attempts := 0, correct := 0, completed := false, questions := [] }
    mastered := false }

/-- src/app.py `init_progress` (lines 101-116): the fresh-session progress
value (the function is a no-op when progress already exists). -/
def init_progress : Progress :=
  { total_attempts := 0
    correct_answers := 0
    wrong_answers := 0
    square := create_shape_progress
    rectangle := create_shape_progress
    triangle := create_shape_progress
    circle := create_shape_progress
    history := [] }

theorem levels_setLevel (sp : ShapeProgress) (l : Level) (d : LevelData) (l' : Level) :
    (sp.setLevel l d).levels l' = if l' = l then d else sp.levels l' := by
  cases l <;> cases l' <;> simp [ShapeProgress.levels, ShapeProgress.setLevel]

theorem setLevel_current_level (sp : ShapeProgress) (l : Level) (d : LevelData) :
    (sp.setLevel l d).current_level = sp.current_level := by
  cases l <;> rfl

theorem setLevel_mastered (sp : ShapeProgress) (l : Level) (d : LevelData) :
    (sp.setLevel l d).mastered = sp.mastered := by
  cases l <;> rfl

theorem shapes_setShape (p : Progress) (s : Shape) (sp : ShapeProgress) (s' : Shape) :
    (p.setShape s sp).shapes s' = if s' = s then sp else p.shapes s' := by
  cases s <;> cases s' <;> simp [Progress.shapes, Progress.setShape]

theorem setShape_total_attempts (p : Progress) (s : Shape) (sp : ShapeProgress) :
    (p.setShape s sp).total_attempts = p.total_attempts := by
  cases s <;> rfl

theorem setShape_correct_answers (p : Progress) (s : Shape) (sp : ShapeProgress) :
    (p.setShape s sp).correct_answers = p.correct_answers := by
  cases s <;> rfl

theorem setShape_wrong_answers (p : Progress) (s : Shape) (sp : ShapeProgress) :
    (p.setShape s sp).wrong_answers = p.wrong_answers := by
  cases s <;> rfl

theorem setShape_history (p : Progress) (s : Shape) (sp : ShapeProgress) :
    (p.setShape s sp).history = p.history := by
  cases s <;> rfl

theorem shapes_set_history (p : Progress) (h : List HistEntry) (s : Shape) :
    ({ p with history := h } : Progress).shapes s = p.shapes s := by
  cases s <;> rfl

theorem shapes_set_globals (p : Progress) (t c w : ℕ) (s : Shape) :
    ({ p with total_attempts := t, correct_answers := c, wrong_answers := w } : Progress).shapes s
      = p.shapes s := by
  cases s <;> rfl

/-- The record returned by src/app.py `check_level_progress`. -/
structure ProgressCheck where
  can_advance : Bool
  level_complete : Bool
  needs_help : Bool
  attempts : ℕ
  correct : ℕ
  required : ℕ
  accuracy : ℚ
  threshold : ℚ
  deriving DecidableEq

/-- src/app.py `check_level_progress` (lines 140-174).  `init_progress` at the
top of the Python function only fills in a missing session value and does not
change an existing one, so here the function is pure in `p`.  The slice
`questions[-3:]` when `len(questions) >= 3` is `drop (length - 3)`. -/
def check_level_progress (p : Progress) (shape : Shape) (level : Level) : ProgressCheck :=
  let level_data := (p.shapes shape).levels level
  let level_config := LEVELS level
  let accuracy : ℚ :=
    if level_data.attempts > 0 then (level_data.correct : ℚ) / level_data.attempts else 0
  let base : ProgressCheck :=
    { can_advance := false, level_complete := false, needs_help := false
      attempts := level_data.attempts, correct := level_data.correct
      required := level_config.questions_required, accuracy := accuracy
      threshold := level_config.pass_threshold }
  let r1 :=
    if level_data.attempts ≥ level_config.questions_required then
      if accuracy ≥ level_config.pass_threshold then
        { base with can_advance := true, level_complete := true }
      else if accuracy < 2/5 then
        { base with needs_help := true }
      else base
    else base
  let recent :=
    if level_data.questions.length ≥ 3 then
      level_data.questions.drop (level_data.questions.length - 3)
    else []
  if recent.length = 3 ∧ ∀ q ∈ recent, q.correct = false then
    { r1 with needs_help := true }
  else r1

/-- The dictionary returned by src/app.py `advance_level`. -/
structure AdvanceResult where
  advanced : Bool
  new_level : Option Level
  shape_mastered : Bool
  deriving DecidableEq

/-- src/app.py `advance_level` (lines 177-200), returning the new progress
together with the result record.  `LEVEL_ORDER[current_index + 1]` is in
bounds under the guard, so `getD` with an arbitrary default is faithful. -/
def advance_level (p : Progress) (shape : Shape) : Progress × AdvanceResult :=
  let sp := p.shapes shape
  let current_level := sp.current_level
  let current_index := LEVEL_ORDER.indexOf current_level
  let sp1 := sp.setLevel current_level { sp.levels current_level with completed := true }
  if current_index < LEVEL_ORDER.length - 1 then
    let next_level := LEVEL_ORDER.getD (current_index + 1) current_level
    let sp2 := { sp1 with current_level := next_level }
    let sp3 := sp2.setLevel next_level { sp2.levels next_level with unlocked := true }
    (p.setShape shape sp3, { advanced := true, new_level := some next_level, shape_mastered := false })
  else
    (p.setShape shape { sp1 with mastered := true },
     { advanced := false, new_level := none, shape_mastered := true })

/-- The parameters reported in a generated question's `given` dictionary. -/
inductive GivenParams where
  | squareP (side : ℚ)
  | rectangleP (length width : ℚ)
  | triangleP (base height : ℚ)
  | circleP (radius : ℚ)
  deriving DecidableEq

/-- A generated question (src/app.py `generate_question`); the text fields
(`problem`, `formula`, `hint`, `steps`) are omitted.  `user_answer` is the key
`submit_answer` adds to the question dictionary (absent on creation). -/
structure Question where
  given : GivenParams
  correct_answer : ℚ
  shape : Shape
  level : Level
  user_answer : Option ℚ
  deriving DecidableEq

/-- src/app.py `update_progress` (lines 402-444).  The dictionary hit of
`question_data.get('user_answer', 0)` becomes `Option.getD 0`. -/
def update_progress (p : Progress) (shape : Shape) (level : Level) (is_correct : Bool)
    (question_data : Question) : Progress :=
  let p1 : Progress :=
    { p with
      total_attempts := p.total_attempts + 1
      correct_answers := if is_correct then p.correct_answers + 1 else p.correct_answers
      wrong_answers := if is_correct then p.wrong_answers else p.wrong_answers + 1 }
  let ld := (p1.shapes shape).levels level
  let qs := ld.questions ++
    [{ correct := is_correct, user_answer := question_data.user_answer.getD 0
       correct_answer := question_data.correct_answer }]
  let qs2 := if qs.length > 20 then qs.drop (qs.length - 20) else qs
  let ld2 : LevelData :=
    { ld with
      attempts := ld.attempts + 1
      correct := if is_correct then ld.correct + 1 else ld.correct
      questions := qs2 }
  let p2 := p1.setShape shape ((p1.shapes shape).setLevel level ld2)
  let hist := p2.history ++ [{ shape := shape, level := level, correct := is_correct }]
  let hist2 := if hist.length > 50 then hist.drop (hist.length - 50) else hist
  { p2 with history := hist2 }

/-- The exact rational value of the IEEE-754 double `math.pi`. -/
def mathPi : ℚ := 884279719003555 / 281474976710656

/-- Python's `round` on a real value: round half to even. -/
def pyRoundInt (x : ℚ) : ℤ :=
  let f := ⌊x⌋
  let r := x - f
  if r < 1/2 then f
  else if 1/2 < r then f + 1
  else if f % 2 = 0 then f else f + 1

/-- Python's `round(x, d)` for `d ≥ 0`.  For `d = 0` the code additionally
applies `int(...)`, which only changes the runtime type, not the value. -/
def pyRound (d : ℕ) (x : ℚ) : ℚ :=
  (pyRoundInt (x * 10 ^ d) : ℚ) / 10 ^ d

/-- The per-level randomization settings of src/app.py `generate_question`
(lines 206-220). -/
structure LevelRanges where
  lo : ℚ
  hi : ℚ
  decimal_places : ℕ
  deriving DecidableEq

/-- Ranges and precision per level: lines 206-219 of src/app.py.  Any level
string other than `beginner`/`intermediate` takes the `else` (expert) branch;
reachable calls pass one of the three levels. -/
def questionRanges : Level → LevelRanges
  | .beginner => { lo := 2, hi := 10, decimal_places := 0 }
  | .intermediate => { lo := 3, hi := 15, decimal_places := 1 }
  | .expert => { lo := 5, hi := 25, decimal_places := 2 }

/-- src/app.py `generate_question` (lines 203-327).  The raw results of the
`random.uniform` calls are passed in as `u1` (first draw) and `u2` (second
draw, used by rectangle and triangle); the function rounds them exactly as the
code does.  Returns `none` for an unsupported shape name (line 327). -/
def generate_question (shape : String) (level : Level) (u1 u2 : ℚ) : Option Question :=
  let r := questionRanges level
  if shape = "square" then
    let side := pyRound r.decimal_places u1
    some { given := .squareP side, correct_answer := side ^ 2
           shape := .square, level := level, user_answer := none }
  else if shape = "rectangle" then
    let length := pyRound r.decimal_places u1
    let width := pyRound r.decimal_places u2
    some { given := .rectangleP length width, correct_answer := length * width
           shape := .rectangle, level := level, user_answer := none }
  else if shape = "triangle" then
    let base := pyRound r.decimal_places u1
    let height := pyRound r.decimal_places u2
    some { given := .triangleP base height, correct_answer := base * height / 2
           shape := .triangle, level := level, user_answer := none }
  else if shape = "circle" then
    let radius := pyRound r.decimal_places u1
    some { given := .circleP radius, correct_answer := mathPi * radius ^ 2
           shape := .circle, level := level, user_answer := none }
  else none

/-- The ranges the code draws `u1`/`u2` from, per shape (src/app.py lines
223, 248-249, 275-276, 302): rectangle width is drawn up to `max * 0.7`,
triangle height up to `max * 0.8`, circle radius in `[min * 0.5, max * 0.5]`. -/
def drawsOk (shape : String) (level : Level) (u1 u2 : ℚ) : Prop :=
  let r := questionRanges level
  (shape = "square" → r.lo ≤ u1 ∧ u1 ≤ r.hi) ∧
  (shape = "rectangle" → (r.lo ≤ u1 ∧ u1 ≤ r.hi) ∧ (r.lo ≤ u2 ∧ u2 ≤ r.hi * (7/10))) ∧
  (shape = "triangle" → (r.lo ≤ u1 ∧ u1 ≤ r.hi) ∧ (r.lo ≤ u2 ∧ u2 ≤ r.hi * (4/5))) ∧
  (shape = "circle" → r.lo * (1/2) ≤ u1 ∧ u1 ≤ r.hi * (1/2))

instance (shape : String) (level : Level) (u1 u2 : ℚ) : Decidable (drawsOk shape level u1 u2) := by
  unfold drawsOk
  exact inferInstance

/-- The valid shape names accepted by `generate_question`. -/
def validShapeNames : List String := ["square", "rectangle", "triangle", "circle"]

/-- src/app.py line 575: relative error with absolute-error fallback when the
correct answer is zero. -/
def evalError (user_answer correct : ℚ) : ℚ :=
  if correct ≠ 0 then |user_answer - correct| / correct else |user_answer - correct|

/-- The session state the `/api/submit-answer` handler reads and writes:
`session['progress']` and `session['current_question']` (absent until
`/practice/<shape>` stores one). -/
structure SessionState where
  progress : Progress
  current_question : Option Question
  deriving DecidableEq

/-- The request body as seen by `data['user_answer']` / `float(...)` on
src/app.py line 566:
* `missingKey` — the JSON object has no `user_answer` key, so the subscript
  raises `KeyError`;
* `nonNumeric s` — the value is a string `float` cannot parse, so `float(...)`
  raises `ValueError`;
* `numeric q` — the value converts to a number. -/
inductive AnswerPayload where
  | missingKey
  | nonNumeric (s : String)
  | numeric (q : ℚ)
  deriving DecidableEq

/-- The observable outcome of one `/api/submit-answer` request: the HTTP
status, the error message if any, the response fields the claims mention, and
the session state after the request. -/
structure SubmitOutcome where
  status : ℕ
  errMsg : Option String
  is_correct : Option Bool
  is_close : Option Bool
  level_status : Option ProgressCheck
  level_up : Option AdvanceResult
  state : SessionState
  deriving DecidableEq

/-- src/app.py `submit_answer` (lines 561-637).
* A missing `user_answer` key raises `KeyError`, which is not a `ValueError`,
  so it falls to the generic `except Exception` handler: status 500.
* A non-numeric value raises `ValueError`: status 400.
* With no `current_question` in the session: status 400 (line 570).
* Otherwise the answer is graded (lines 572-578), `user_answer` is written
  into the question dictionary (line 581), progress is updated, and
  `advance_level` runs exactly when the answer was graded correct and
  `can_advance` holds (lines 589-597).  The code never removes
  `current_question` from the session. -/
def submit_answer (payload : AnswerPayload) (st : SessionState) : SubmitOutcome :=
  match payload with
  | .missingKey =>
    { status := 500, errMsg := some "KeyError: user_answer"
      is_correct := none, is_close := none, level_status := none, level_up := none
      state := st }
  | .nonNumeric _ =>
    { status := 400, errMsg := some "Please enter a valid number"
      is_correct := none, is_close := none, level_status := none, level_up := none
      state := st }
  | .numeric user_answer =>
    match st.current_question with
    | none =>
      { status := 400, errMsg := some "No active question"
        is_correct := none, is_close := none, level_status := none, level_up := none
        state := st }
    | some question =>
      let correct := question.correct_answer
      let shape := question.shape
      let level := question.level
      let error := evalError user_answer correct
      let is_correct := decide (error ≤ 2/100)
      let is_close := decide (error ≤ 10/100) && !is_correct
      let question2 : Question := { question with user_answer := some user_answer }
      let progress := update_progress st.progress shape level is_correct question2
      let level_status := check_level_progress progress shape level
      let doAdvance := is_correct && level_status.can_advance
      let progress2 := if doAdvance then (advance_level progress shape).1 else progress
      let level_up := if doAdvance then some (advance_level progress shape).2 else none
      { status := 200, errMsg := none
        is_correct := some is_correct, is_close := some is_close
        level_status := some level_status, level_up := level_up
        state := { progress := progress2, current_question := some question2 } }

/-- Shape keys as URL strings. -/
def shapeName : Shape → String
  | .square => "square"
  | .rectangle => "rectangle"
  | .triangle => "triangle"
  | .circle => "circle"

/-- Membership test `shape_name in session['progress']['shapes']`: the keys
are exactly the four shapes. -/
def parseShape (s : String) : Option Shape :=
  if s = "square" then some .square
  else if s = "rectangle" then some .rectangle
  else if s = "triangle" then some .triangle
  else if s = "circle" then some .circle
  else none

/-- src/app.py `reset_shape` (lines 682-690): replace the named shape's
progress with a fresh `create_shape_progress()` when the name is a key of the
shapes dictionary, otherwise change nothing. -/
def reset_shape (shape_name : String) (p : Progress) : Progress :=
  match parseShape shape_name with
  | some s => p.setShape s create_shape_progress
  | none => p

/-! ### Derived notions used to state the claims -/

/-- The accuracy value `check_level_progress` computes for a level:
`correct / attempts`, defaulting to `0` when there are no attempts. -/
def levelAccuracy (ld : LevelData) : ℚ :=
  if ld.attempts > 0 then (ld.correct : ℚ) / ld.attempts else 0

/-- The last three recorded answers exist and are all incorrect. -/
def last3AllWrong (qs : List QuestionRecord) : Prop :=
  3 ≤ qs.length ∧ ∀ r ∈ qs.drop (qs.length - 3), r.correct = false

instance (qs : List QuestionRecord) : Decidable (last3AllWrong qs) := by
  unfold last3AllWrong
  exact inferInstance

/-- The closed-form area formulas as the spec states them (square: s²;
rectangle: l×w; triangle: b×h/2; circle: π×r²), applied to a question's
`given` parameters. -/
def areaFormula : GivenParams → ℚ
  | .squareP side => side ^ 2
  | .rectangleP length width => length * width
  | .triangleP base height => base * height / 2
  | .circleP radius => mathPi * radius ^ 2

/-- The implicit invariant of claim C9: per shape and level,
`correct ≤ attempts`. -/
def progressInv (p : Progress) : Prop :=
  ∀ s : Shape, ∀ l : Level, ((p.shapes s).levels l).correct ≤ ((p.shapes s).levels l).attempts

instance (p : Progress) : Decidable (progressInv p) := by
  unfold progressInv
  exact inferInstance

/-- A concrete active question used for witnesses and counterexamples: a
beginner square question with side 2 (so `correct_answer = 4`). -/
def sampleQuestion : Question :=
  { given := .squareP 2, correct_answer := 4, shape := .square, level := .beginner
    user_answer := none }

/-- A concrete session: fresh progress except that square/beginner has the
given attempt and correct counts, with `sampleQuestion` active. -/
def sampleState (att cor : ℕ) : SessionState :=
  { progress := init_progress.setShape .square
      (create_shape_progress.setLevel .beginner
        { unlocked := true, attempts := att, correct := cor, completed := false, questions := [] })
    current_question := some sampleQuestion }

/-! ### Helper lemmas -/

theorem levels_set_current (sp : ShapeProgress) (x : Level) (l : Level) :
    ({ sp with current_level := x } : ShapeProgress).levels l = sp.levels l := by
  cases l <;> rfl

theorem levels_set_mastered (sp : ShapeProgress) (m : Bool) (l : Level) :
    ({ sp with mastered := m } : ShapeProgress).levels l = sp.levels l := by
  cases l <;> rfl

theorem every_threshold_ge (l : Level) : (2 : ℚ)/5 ≤ (LEVELS l).pass_threshold := by
  cases l <;> norm_num [LEVELS]

theorem check_accuracy (p : Progress) (s : Shape) (l : Level) :
    (check_level_progress p s l).accuracy = levelAccuracy ((p.shapes s).levels l) := by
  simp only [check_level_progress, levelAccuracy]
  split_ifs <;> rfl

theorem check_attempts (p : Progress) (s : Shape) (l : Level) :
    (check_level_progress p s l).attempts = ((p.shapes s).levels l).attempts := by
  simp only [check_level_progress]
  split_ifs <;> rfl

theorem check_correct (p : Progress) (s : Shape) (l : Level) :
    (check_level_progress p s l).correct = ((p.shapes s).levels l).correct := by
  simp only [check_level_progress]
  split_ifs <;> rfl

theorem check_required (p : Progress) (s : Shape) (l : Level) :
    (check_level_progress p s l).required = (LEVELS l).questions_required := by
  simp only [check_level_progress]
  split_ifs <;> rfl

theorem check_threshold (p : Progress) (s : Shape) (l : Level) :
    (check_level_progress p s l).threshold = (LEVELS l).pass_threshold := by
  simp only [check_level_progress]
  split_ifs <;> rfl

theorem threshold_pos (l : Level) : 0 < (LEVELS l).pass_threshold := by
  cases l <;> norm_num [LEVELS]

theorem can_advance_iff (p : Progress) (s : Shape) (l : Level) :
    (check_level_progress p s l).can_advance = true ↔
      ((LEVELS l).questions_required ≤ ((p.shapes s).levels l).attempts ∧
        (LEVELS l).pass_threshold ≤ levelAccuracy ((p.shapes s).levels l)) := by
  have hpos := threshold_pos l
  simp only [check_level_progress, levelAccuracy]
  split_ifs <;> simp_all

theorem level_complete_eq_can_advance (p : Progress) (s : Shape) (l : Level) :
    (check_level_progress p s l).level_complete = (check_level_progress p s l).can_advance := by
  simp only [check_level_progress]
  split_ifs <;> rfl

theorem recent_cond_iff (qs : List QuestionRecord) :
    ((if qs.length ≥ 3 then qs.drop (qs.length - 3) else []).length = 3 ∧
      ∀ q ∈ (if qs.length ≥ 3 then qs.drop (qs.length - 3) else []), q.correct = false) ↔
      last3AllWrong qs := by
  unfold last3AllWrong
  by_cases h3 : qs.length ≥ 3
  · rw [if_pos h3]
    have hlen : (qs.drop (qs.length - 3)).length = 3 := by
      rw [List.length_drop]
      omega
    rw [hlen]
    constructor
    · rintro ⟨-, h⟩
      exact ⟨h3, h⟩
    · rintro ⟨-, h⟩
      exact ⟨rfl, h⟩
  · rw [if_neg h3]
    constructor
    · rintro ⟨h, -⟩
      simp at h
    · rintro ⟨h, -⟩
      exact absurd h h3

theorem needs_help_iff (p : Progress) (s : Shape) (l : Level) :
    (check_level_progress p s l).needs_help = true ↔
      (((LEVELS l).questions_required ≤ ((p.shapes s).levels l).attempts ∧
          levelAccuracy ((p.shapes s).levels l) < 2/5) ∨
        last3AllWrong ((p.shapes s).levels l).questions) := by
  have hthr := every_threshold_ge l
  simp only [check_level_progress, levelAccuracy, recent_cond_iff]
  split_ifs with hB hA hT hH <;> simp_all <;> linarith [threshold_pos l]

theorem update_progress_level_self (p : Progress) (s : Shape) (l : Level) (b : Bool)
    (q : Question) :
    ((update_progress p s l b q).shapes s).levels l =
      (let ld := (p.shapes s).levels l
       let qs := ld.questions ++
         [{ correct := b, user_answer := q.user_answer.getD 0
            correct_answer := q.correct_answer }]
       { ld with
         attempts := ld.attempts + 1
         correct := if b then ld.correct + 1 else ld.correct
         questions := if qs.length > 20 then qs.drop (qs.length - 20) else qs }) := by
  simp only [update_progress, shapes_set_history, shapes_setShape, shapes_set_globals,
    levels_setLevel, if_pos]

theorem update_progress_frame (p : Progress) (s : Shape) (l : Level) (b : Bool) (q : Question)
    (s' : Shape) (l' : Level) (h : ¬(s' = s ∧ l' = l)) :
    ((update_progress p s l b q).shapes s').levels l' = (p.shapes s').levels l' := by
  simp only [update_progress, shapes_set_history, shapes_setShape, shapes_set_globals]
  by_cases hs : s' = s
  · have hl : l' ≠ l := fun hl => h ⟨hs, hl⟩
    simp [hs, levels_setLevel, hl]
  · simp [hs]

theorem update_progress_current_level (p : Progress) (s : Shape) (l : Level) (b : Bool)
    (q : Question) (s' : Shape) :
    ((update_progress p s l b q).shapes s').current_level = (p.shapes s').current_level := by
  simp only [update_progress, shapes_set_history, shapes_setShape, shapes_set_globals]
  by_cases hs : s' = s
  · simp [hs, setLevel_current_level]
  · simp [hs]

theorem update_progress_attempts_pos (p : Progress) (s : Shape) (l : Level) (b : Bool)
    (q : Question) :
    0 < (((update_progress p s l b q).shapes s).levels l).attempts := by
  rw [update_progress_level_self]
  simp

theorem update_progress_globals (p : Progress) (s : Shape) (l : Level) (b : Bool)
    (q : Question) :
    (update_progress p s l b q).total_attempts = p.total_attempts + 1 ∧
      (update_progress p s l b q).correct_answers =
        (if b then p.correct_answers + 1 else p.correct_answers) ∧
      (update_progress p s l b q).wrong_answers =
        (if b then p.wrong_answers else p.wrong_answers + 1) := by
  simp only [update_progress]
  refine ⟨?_, ?_, ?_⟩ <;> simp [setShape_total_attempts, setShape_correct_answers,
    setShape_wrong_answers]

theorem advance_level_frame (p : Progress) (s : Shape) (s' : Shape) (h : s' ≠ s) :
    (advance_level p s).1.shapes s' = p.shapes s' := by
  simp only [advance_level]
  split_ifs <;> simp [shapes_setShape, h]

theorem advance_level_counts (p : Progress) (s : Shape) (s' : Shape) (l' : Level) :
    (((advance_level p s).1.shapes s').levels l').attempts
        = ((p.shapes s').levels l').attempts ∧
      (((advance_level p s).1.shapes s').levels l').correct
        = ((p.shapes s').levels l').correct := by
  by_cases hs : s' = s
  · subst hs
    simp only [advance_level]
    split_ifs
    · simp only [shapes_setShape, if_pos, levels_set_current, levels_setLevel]
      split_ifs with h1 h2 h2 <;> simp_all
    · simp only [shapes_setShape, if_pos, levels_set_mastered, levels_setLevel]
      split_ifs with h1 <;> simp_all
  · rw [advance_level_frame p s s' hs]
    exact ⟨rfl, rfl⟩

theorem indexOf_beginner : LEVEL_ORDER.indexOf Level.beginner = 0 := by decide

theorem indexOf_intermediate : LEVEL_ORDER.indexOf Level.intermediate = 1 := by decide

theorem indexOf_expert : LEVEL_ORDER.indexOf Level.expert = 2 := by decide

theorem advance_level_completed (p : Progress) (s : Shape) :
    ((((advance_level p s).1.shapes s).levels ((p.shapes s).current_level)).completed) = true := by
  rcases hcl : (p.shapes s).current_level <;>
    simp [advance_level, hcl, indexOf_beginner, indexOf_intermediate, indexOf_expert,
      LEVEL_ORDER, shapes_setShape, levels_set_current, levels_set_mastered, levels_setLevel]

theorem submit_numeric_none (st : SessionState) (u : ℚ) (h : st.current_question = none) :
    submit_answer (.numeric u) st =
      { status := 400, errMsg := some "No active question"
        is_correct := none, is_close := none, level_status := none, level_up := none
        state := st } := by
  simp only [submit_answer, h]

theorem submit_numeric_some (st : SessionState) (q : Question) (u : ℚ)
    (hq : st.current_question = some q) :
    submit_answer (.numeric u) st =
      (let error := evalError u q.correct_answer
       let is_corr := decide (error ≤ 2/100)
       let is_close := decide (error ≤ 10/100) && !is_corr
       let question2 : Question := { q with user_answer := some u }
       let progress := update_progress st.progress q.shape q.level is_corr question2
       let level_status := check_level_progress progress q.shape q.level
       let doAdvance := is_corr && level_status.can_advance
       { status := 200, errMsg := none
         is_correct := some is_corr, is_close := some is_close
         level_status := some level_status
         level_up := if doAdvance then some (advance_level progress q.shape).2 else none
         state := { progress := if doAdvance then (advance_level progress q.shape).1 else progress
                    current_question := some question2 } }) := by
  simp only [submit_answer, hq]

/-! ### The claims -/

/-- C2: the submit-answer endpoint returns 400 for a non-numeric answer value
and for a submission with no active question pending, 200 on the normal path,
and 500 otherwise — in particular a payload whose `user_answer` key is missing
raises `KeyError`, which the generic handler turns into a 500, not a 400.
(Amended from the claim, which puts the missing-answer case at 400.) -/
theorem C2_theorem (st : SessionState) (s : String) (u : ℚ) :
    ((submit_answer (.nonNumeric s) st).status = 400 ∧
      (submit_answer (.nonNumeric s) st).state = st) ∧
    ((submit_answer .missingKey st).status = 500 ∧
      (submit_answer .missingKey st).state = st) ∧
    (st.current_question = none →
      (submit_answer (.numeric u) st).status = 400 ∧
      (submit_answer (.numeric u) st).errMsg = some "No active question") ∧
    (∀ q, st.current_question = some q → (submit_answer (.numeric u) st).status = 200) := by
  refine ⟨⟨rfl, rfl⟩, ⟨rfl, rfl⟩, ?_, ?_⟩
  · intro h
    rw [submit_numeric_none st u h]
    exact ⟨rfl, rfl⟩
  · intro q hq
    rw [submit_numeric_some st q u hq]

/-- C2 witness: each case of `C2_theorem` at a concrete session. -/
theorem C2_witness :
    ((submit_answer (.nonNumeric "abc") (sampleState 0 0)).status = 400 ∧
      (submit_answer (.nonNumeric "abc") (sampleState 0 0)).state = sampleState 0 0) ∧
    (submit_answer (.numeric 4)
      { progress := init_progress, current_question := none }).status = 400 ∧
    (submit_answer (.numeric 4) (sampleState 0 0)).status = 200 := by
  refine ⟨(C2_theorem (sampleState 0 0) "abc" 4).1, ?_, ?_⟩
  · exact ((C2_theorem { progress := init_progress, current_question := none } "abc" 4).2.2.1
      rfl).1
  · exact (C2_theorem (sampleState 0 0) "abc" 4).2.2.2 sampleQuestion rfl

/-- C2 counterexample: the claim says a missing answer yields 400, but the
`KeyError` from `data['user_answer']` is caught by the generic handler and
yields 500. -/
theorem C2_counterexample :
    (submit_answer .missingKey (sampleState 0 0)).status = 500 ∧
    ¬(submit_answer .missingKey (sampleState 0 0)).status = 400 := by
  exact ⟨rfl, by decide⟩

theorem submit_attempts_inc (st : SessionState) (q : Question) (u : ℚ)
    (hq : st.current_question = some q) :
    (((submit_answer (.numeric u) st).state.progress.shapes q.shape).levels q.level).attempts
      = ((st.progress.shapes q.shape).levels q.level).attempts + 1 := by
  rw [submit_numeric_some st q u hq]
  simp only
  split_ifs with hd
  · rw [(advance_level_counts _ q.shape q.shape q.level).1]
    rw [update_progress_level_self]
  · rw [update_progress_level_self]

/-- C3: a processed question is NOT cleared from the session: after a
submission the question stays pending (only annotated with the submitted
answer), a second submission without generating a new question is processed
again with status 200 and increments the level's attempt counter again, and
`NoActiveQuestion` (400) occurs only when the session holds no question at
all.  (Amended from the claim, which says the second submission is rejected.) -/
theorem C3_theorem (st : SessionState) (q : Question) (u u' : ℚ)
    (hq : st.current_question = some q) :
    ((submit_answer (.numeric u) st).state.current_question
        = some { q with user_answer := some u }) ∧
    (submit_answer (.numeric u') (submit_answer (.numeric u) st).state).status = 200 ∧
    ((((submit_answer (.numeric u') (submit_answer (.numeric u) st).state).state.progress.shapes
          q.shape).levels q.level).attempts
      = (((submit_answer (.numeric u) st).state.progress.shapes q.shape).levels
          q.level).attempts + 1) ∧
    (∀ st' : SessionState, st'.current_question = none →
      (submit_answer (.numeric u') st').status = 400 ∧
      (submit_answer (.numeric u') st').errMsg = some "No active question") := by
  have h1 : (submit_answer (.numeric u) st).state.current_question
      = some { q with user_answer := some u } := by
    rw [submit_numeric_some st q u hq]
  refine ⟨h1, ?_, ?_, ?_⟩
  · rw [submit_numeric_some _ { q with user_answer := some u } u' h1]
  · exact submit_attempts_inc _ { q with user_answer := some u } u' h1
  · intro st' h
    rw [submit_numeric_none st' u' h]
    exact ⟨rfl, rfl⟩

/-- C3 witness: the second submission on an untouched session is accepted and
counted again. -/
theorem C3_witness :
    ((submit_answer (.numeric 4) (sampleState 0 0)).state.current_question
        = some { sampleQuestion with user_answer := some (4 : ℚ) }) ∧
    (submit_answer (.numeric 4)
      (submit_answer (.numeric 4) (sampleState 0 0)).state).status = 200 := by
  have h := C3_theorem (sampleState 0 0) sampleQuestion 4 4 rfl
  exact ⟨h.1, h.2.1⟩

/-- C3 counterexample: submitting twice without a fresh question is not
rejected: the second call returns 200 and the attempt counter reaches 2. -/
theorem C3_counterexample :
    ((submit_answer (.numeric 4) (sampleState 0 0)).state.current_question ≠ none) ∧
    (submit_answer (.numeric 4)
      (submit_answer (.numeric 4) (sampleState 0 0)).state).status = 200 ∧
    (((submit_answer (.numeric 4)
        (submit_answer (.numeric 4) (sampleState 0 0)).state).state.progress.shapes
          .square).levels .beginner).attempts = 2 := by
  have h1 : (submit_answer (.numeric 4) (sampleState 0 0)).state.current_question
      = some { sampleQuestion with user_answer := some (4 : ℚ) } := by
    rw [submit_numeric_some _ sampleQuestion 4 rfl]
  have e1 := submit_attempts_inc (sampleState 0 0) sampleQuestion 4 rfl
  have e2 := submit_attempts_inc _ { sampleQuestion with user_answer := some (4 : ℚ) } 4 h1
  have e0 : (((sampleState 0 0).progress.shapes .square).levels .beginner).attempts = 0 := rfl
  dsimp only [sampleQuestion] at e1 e2
  refine ⟨by rw [h1]; exact fun h => Option.noConfusion h, ?_, ?_⟩
  · rw [submit_numeric_some _ { sampleQuestion with user_answer := some (4 : ℚ) } 4 h1]
  · rw [e2, e1, e0]

/-- C4: answer grading computes relative error with absolute-error fallback at
zero, and classifies every answer into exactly one of `correct`
(error ≤ 0.02), `close` (0.02 < error ≤ 0.10), `wrong` (error > 0.10). -/
theorem C4_theorem (st : SessionState) (q : Question) (u : ℚ)
    (hq : st.current_question = some q) :
    ((q.correct_answer ≠ 0 →
        evalError u q.correct_answer = |u - q.correct_answer| / q.correct_answer) ∧
      (q.correct_answer = 0 → evalError u q.correct_answer = |u - q.correct_answer|)) ∧
    ((submit_answer (.numeric u) st).is_correct
        = some (decide (evalError u q.correct_answer ≤ 2/100))) ∧
    ((submit_answer (.numeric u) st).is_close
        = some (decide (evalError u q.correct_answer ≤ 10/100) &&
            !decide (evalError u q.correct_answer ≤ 2/100))) ∧
    ((submit_answer (.numeric u) st).is_correct = some true ↔
      evalError u q.correct_answer ≤ 2/100) ∧
    ((submit_answer (.numeric u) st).is_close = some true ↔
      (2/100 < evalError u q.correct_answer ∧ evalError u q.correct_answer ≤ 10/100)) ∧
    (((submit_answer (.numeric u) st).is_correct = some false ∧
        (submit_answer (.numeric u) st).is_close = some false) ↔
      10/100 < evalError u q.correct_answer) ∧
    ((evalError u q.correct_answer ≤ 2/100 ∧
        ¬(2/100 < evalError u q.correct_answer ∧ evalError u q.correct_answer ≤ 10/100) ∧
        ¬(10/100 < evalError u q.correct_answer)) ∨
      (¬(evalError u q.correct_answer ≤ 2/100) ∧
        (2/100 < evalError u q.correct_answer ∧ evalError u q.correct_answer ≤ 10/100) ∧
        ¬(10/100 < evalError u q.correct_answer)) ∨
      (¬(evalError u q.correct_answer ≤ 2/100) ∧
        ¬(2/100 < evalError u q.correct_answer ∧ evalError u q.correct_answer ≤ 10/100) ∧
        10/100 < evalError u q.correct_answer)) := by
  rw [submit_numeric_some st q u hq]
  simp only
  refine ⟨⟨?_, ?_⟩, trivial, trivial, ?_, ?_, ?_, ?_⟩
  · intro h
    rw [evalError, if_pos h]
  · intro h
    rw [evalError, if_neg (by simp [h])]
  · simp [decide_eq_true_eq]
  · simp only [Option.some.injEq, Bool.and_eq_true, Bool.not_eq_true',
      decide_eq_true_eq, decide_eq_false_iff_not, not_le]
    exact and_comm
  · simp only [Option.some.injEq, Bool.and_eq_false_iff, Bool.not_eq_false,
      decide_eq_true_eq, decide_eq_false_iff_not, not_le]
    constructor
    · rintro ⟨h2, h10 | h2t⟩
      · exact h10
      · simp at h2t
        linarith
    · intro h10
      exact ⟨by linarith, Or.inl (by linarith)⟩
  · rcases le_or_lt (evalError u q.correct_answer) (2/100) with h2 | h2
    · exact Or.inl ⟨h2, fun h => absurd h2 (not_le.mpr h.1), by push_neg; linarith⟩
    · rcases le_or_lt (evalError u q.correct_answer) (10/100) with h10 | h10
      · exact Or.inr (Or.inl ⟨not_le.mpr h2, ⟨h2, h10⟩, not_lt.mpr h10⟩)
      · exact Or.inr (Or.inr ⟨not_le.mpr h2, fun h => absurd h.2 (not_le.mpr h10), h10⟩)

/-- C4 witness: `C4_theorem` at a concrete session with an exactly-correct
answer. -/
theorem C4_witness :
    ((submit_answer (.numeric 4) (sampleState 0 0)).is_correct
        = some (decide (evalError 4 sampleQuestion.correct_answer ≤ 2/100))) ∧
    ((submit_answer (.numeric 4) (sampleState 0 0)).is_correct = some true ↔
      evalError 4 sampleQuestion.correct_answer ≤ 2/100) := by
  have h := C4_theorem (sampleState 0 0) sampleQuestion 4 rfl
  exact ⟨h.2.1, h.2.2.2.1⟩

/-- C1 (amended): upon an answer submission with an active question, the
level-advancement routine fires if and only if the submitted answer is graded
correct AND, after the submission is recorded, `attempts >= questions_required`
and `accuracy >= pass_threshold` for the question's level; the claim's pure
attempts/accuracy iff omits the graded-correct conjunct.  When it fires, the
shape's current level is marked completed. -/
theorem C1_theorem (st : SessionState) (q : Question) (u : ℚ)
    (hq : st.current_question = some q) :
    ((submit_answer (.numeric u) st).level_up.isSome
        = (decide (evalError u q.correct_answer ≤ 2/100) &&
           (check_level_progress
             (update_progress st.progress q.shape q.level
               (decide (evalError u q.correct_answer ≤ 2/100)) { q with user_answer := some u })
             q.shape q.level).can_advance)) ∧
    ((check_level_progress
        (update_progress st.progress q.shape q.level
          (decide (evalError u q.correct_answer ≤ 2/100)) { q with user_answer := some u })
        q.shape q.level).can_advance = true ↔
      ((LEVELS q.level).questions_required ≤
          (((update_progress st.progress q.shape q.level
              (decide (evalError u q.correct_answer ≤ 2/100))
              { q with user_answer := some u }).shapes q.shape).levels q.level).attempts ∧
        (LEVELS q.level).pass_threshold ≤
          levelAccuracy (((update_progress st.progress q.shape q.level
              (decide (evalError u q.correct_answer ≤ 2/100))
              { q with user_answer := some u }).shapes q.shape).levels q.level))) ∧
    ((submit_answer (.numeric u) st).state.progress =
      (if (decide (evalError u q.correct_answer ≤ 2/100) &&
            (check_level_progress
              (update_progress st.progress q.shape q.level
                (decide (evalError u q.correct_answer ≤ 2/100)) { q with user_answer := some u })
              q.shape q.level).can_advance) = true
        then (advance_level
            (update_progress st.progress q.shape q.level
              (decide (evalError u q.correct_answer ≤ 2/100)) { q with user_answer := some u })
            q.shape).1
        else update_progress st.progress q.shape q.level
          (decide (evalError u q.correct_answer ≤ 2/100)) { q with user_answer := some u })) ∧
    ((submit_answer (.numeric u) st).level_up.isSome = true →
      (((submit_answer (.numeric u) st).state.progress.shapes q.shape).levels
          ((st.progress.shapes q.shape).current_level)).completed = true) := by
  rw [submit_numeric_some st q u hq]
  simp only
  refine ⟨?_, can_advance_iff _ _ _, trivial, ?_⟩
  · by_cases hd : (decide (evalError u q.correct_answer ≤ 2/100) &&
        (check_level_progress
          (update_progress st.progress q.shape q.level
            (decide (evalError u q.correct_answer ≤ 2/100)) { q with user_answer := some u })
          q.shape q.level).can_advance) = true
    · rw [if_pos hd, hd]
      rfl
    · rw [if_neg hd]
      simp only [Bool.not_eq_true] at hd
      rw [hd]
      rfl
  · intro h
    by_cases hd : (decide (evalError u q.correct_answer ≤ 2/100) &&
        (check_level_progress
          (update_progress st.progress q.shape q.level
            (decide (evalError u q.correct_answer ≤ 2/100)) { q with user_answer := some u })
          q.shape q.level).can_advance) = true
    · rw [if_pos hd]
      rw [← update_progress_current_level st.progress q.shape q.level
        (decide (evalError u q.correct_answer ≤ 2/100)) { q with user_answer := some u } q.shape]
      exact advance_level_completed _ q.shape
    · rw [if_neg hd] at h
      exact absurd h (by simp)

/-- C1 witness: `C1_theorem` at a concrete session. -/
theorem C1_witness :
    (submit_answer (.numeric 4) (sampleState 4 3)).level_up.isSome
      = (decide (evalError 4 sampleQuestion.correct_answer ≤ 2/100) &&
         (check_level_progress
           (update_progress (sampleState 4 3).progress sampleQuestion.shape sampleQuestion.level
             (decide (evalError 4 sampleQuestion.correct_answer ≤ 2/100))
             { sampleQuestion with user_answer := some (4 : ℚ) })
           sampleQuestion.shape sampleQuestion.level).can_advance) :=
  (C1_theorem (sampleState 4 3) sampleQuestion 4 rfl).1

/-- C1 counterexample: with square/beginner at 4 attempts, 4 correct, a wrong
fifth answer brings the state to attempts = 5 ≥ 5 required and accuracy
4/5 ≥ 3/5 threshold, yet no advancement fires: `level_up` is null, beginner is
not marked completed and the current level does not change. -/
theorem C1_counterexample :
    ((((submit_answer (.numeric 100) (sampleState 4 4)).state.progress.shapes
        .square).levels .beginner).attempts = 5) ∧
    ((((submit_answer (.numeric 100) (sampleState 4 4)).state.progress.shapes
        .square).levels .beginner).correct = 4) ∧
    (levelAccuracy (((submit_answer (.numeric 100) (sampleState 4 4)).state.progress.shapes
        .square).levels .beginner) = 4/5) ∧
    (LEVELS .beginner).questions_required = 5 ∧
    ((LEVELS .beginner).pass_threshold ≤ (4 : ℚ)/5) ∧
    (submit_answer (.numeric 100) (sampleState 4 4)).level_up = none ∧
    ((((submit_answer (.numeric 100) (sampleState 4 4)).state.progress.shapes
        .square).levels .beginner).completed = false) ∧
    ((submit_answer (.numeric 100) (sampleState 4 4)).state.progress.shapes
        .square).current_level = .beginner := by
  have herr : evalError (100 : ℚ) 4 = 24 := by
    rw [evalError, if_pos (by norm_num), abs_of_nonneg (by norm_num)]
    norm_num
  have hcorr : decide (evalError (100 : ℚ) 4 ≤ 2/100) = false := by
    rw [decide_eq_false_iff_not, herr]
    norm_num
  have hstate : (submit_answer (.numeric 100) (sampleState 4 4)).state.progress
      = update_progress (sampleState 4 4).progress Shape.square Level.beginner false
          { given := GivenParams.squareP 2, correct_answer := 4, shape := Shape.square
            level := Level.beginner, user_answer := some (100 : ℚ) } := by
    rw [submit_numeric_some _ sampleQuestion 100 rfl]
    dsimp only [sampleQuestion]
    rw [hcorr]
    simp
  have hlevel_up : (submit_answer (.numeric 100) (sampleState 4 4)).level_up = none := by
    rw [submit_numeric_some _ sampleQuestion 100 rfl]
    dsimp only [sampleQuestion]
    rw [hcorr]
    simp
  have hupd2 : (((update_progress (sampleState 4 4).progress Shape.square Level.beginner false
      { given := GivenParams.squareP 2, correct_answer := 4, shape := Shape.square
        level := Level.beginner, user_answer := some (100 : ℚ) }).shapes Shape.square).levels
        Level.beginner)
      = { unlocked := true, attempts := 5, correct := 4, completed := false
          questions := [{ correct := false, user_answer := 100, correct_answer := 4 }] } := by
    rw [update_progress_level_self]
    rfl
  refine ⟨?_, ?_, ?_, rfl, by norm_num [LEVELS], hlevel_up, ?_, ?_⟩
  · rw [hstate, hupd2]
  · rw [hstate, hupd2]
  · rw [hstate, hupd2]
    norm_num [levelAccuracy]
  · rw [hstate, hupd2]
  · rw [hstate]
    rw [update_progress_current_level]
    rfl

/-- C5: for every valid shape name and level, the generated question's
`correct_answer` equals the closed-form area formula applied to its `given`
parameters, and an unsupported shape name yields no question. -/
theorem C5_theorem (level : Level) (u1 u2 : ℚ) :
    (∀ name ∈ validShapeNames, ∃ q, generate_question name level u1 u2 = some q ∧
        q.correct_answer = areaFormula q.given) ∧
    (∀ name, name ∉ validShapeNames → generate_question name level u1 u2 = none) := by
  constructor
  · intro name hname
    simp only [validShapeNames, List.mem_cons, List.not_mem_nil, or_false] at hname
    rcases hname with rfl | rfl | rfl | rfl
    · exact ⟨_, rfl, rfl⟩
    · exact ⟨_, rfl, rfl⟩
    · exact ⟨_, rfl, rfl⟩
    · exact ⟨_, rfl, rfl⟩
  · intro name hname
    simp only [validShapeNames, List.mem_cons, List.not_mem_nil, or_false, not_or] at hname
    obtain ⟨h1, h2, h3, h4⟩ := hname
    simp [generate_question, h1, h2, h3, h4]

/-- C5 witness: a valid and an invalid shape name at a concrete level and
draws. -/
theorem C5_witness :
    (∃ q, generate_question "circle" Level.beginner 3 0 = some q ∧
      q.correct_answer = areaFormula q.given) ∧
    generate_question "pentagon" Level.beginner 3 0 = none := by
  refine ⟨(C5_theorem Level.beginner 3 0).1 "circle" (by simp [validShapeNames]),
    (C5_theorem Level.beginner 3 0).2 "pentagon" (by simp [validShapeNames])⟩

/-- C6: advancing marks the shape's current level completed; from beginner or
intermediate exactly the next level in order becomes unlocked and current
(other unlock flags and `mastered` unchanged); at expert the shape is marked
mastered with expert completed and no unlock flag changes.  Other shapes are
untouched. -/
theorem C6_theorem (p : Progress) (s : Shape) :
    ((((advance_level p s).1.shapes s).levels ((p.shapes s).current_level)).completed = true) ∧
    (∀ s', s' ≠ s → (advance_level p s).1.shapes s' = p.shapes s') ∧
    ((p.shapes s).current_level = .beginner →
      ((advance_level p s).1.shapes s).current_level = .intermediate ∧
      (((advance_level p s).1.shapes s).levels .intermediate).unlocked = true ∧
      (((advance_level p s).1.shapes s).levels .beginner).unlocked
        = ((p.shapes s).levels .beginner).unlocked ∧
      (((advance_level p s).1.shapes s).levels .expert).unlocked
        = ((p.shapes s).levels .expert).unlocked ∧
      ((advance_level p s).1.shapes s).mastered = (p.shapes s).mastered ∧
      (advance_level p s).2 = { advanced := true, new_level := some .intermediate
                                shape_mastered := false }) ∧
    ((p.shapes s).current_level = .intermediate →
      ((advance_level p s).1.shapes s).current_level = .expert ∧
      (((advance_level p s).1.shapes s).levels .expert).unlocked = true ∧
      (((advance_level p s).1.shapes s).levels .beginner).unlocked
        = ((p.shapes s).levels .beginner).unlocked ∧
      (((advance_level p s).1.shapes s).levels .intermediate).unlocked
        = ((p.shapes s).levels .intermediate).unlocked ∧
      ((advance_level p s).1.shapes s).mastered = (p.shapes s).mastered ∧
      (advance_level p s).2 = { advanced := true, new_level := some .expert
                                shape_mastered := false }) ∧
    ((p.shapes s).current_level = .expert →
      ((advance_level p s).1.shapes s).current_level = .expert ∧
      ((advance_level p s).1.shapes s).mastered = true ∧
      (((advance_level p s).1.shapes s).levels .expert).completed = true ∧
      (∀ l, (((advance_level p s).1.shapes s).levels l).unlocked
        = ((p.shapes s).levels l).unlocked) ∧
      (advance_level p s).2 = { advanced := false, new_level := none
                                shape_mastered := true }) := by
  refine ⟨advance_level_completed p s, fun s' h => advance_level_frame p s s' h, ?_, ?_, ?_⟩
  · intro h
    simp [advance_level, h, indexOf_beginner, LEVEL_ORDER, shapes_setShape,
      levels_set_current, levels_set_mastered, levels_setLevel, setLevel_current_level,
      setLevel_mastered, ShapeProgress.levels, ShapeProgress.setLevel]
  · intro h
    simp [advance_level, h, indexOf_intermediate, LEVEL_ORDER, shapes_setShape,
      levels_set_current, levels_set_mastered, levels_setLevel, setLevel_current_level,
      setLevel_mastered, ShapeProgress.levels, ShapeProgress.setLevel]
  · intro h
    refine ⟨?_, ?_, ?_, ?_, ?_⟩ <;>
      first
        | (intro l
           cases l <;>
             simp [advance_level, h, indexOf_expert, LEVEL_ORDER, shapes_setShape,
               levels_set_current, levels_set_mastered, levels_setLevel,
               setLevel_current_level, setLevel_mastered, ShapeProgress.levels,
               ShapeProgress.setLevel])
        | simp [advance_level, h, indexOf_expert, LEVEL_ORDER, shapes_setShape,
            levels_set_current, levels_set_mastered, levels_setLevel,
            setLevel_current_level, setLevel_mastered, ShapeProgress.levels,
            ShapeProgress.setLevel]

/-- C6 witness: advancing a fresh square from beginner unlocks intermediate
and leaves the other shapes untouched. -/
theorem C6_witness :
    (((advance_level init_progress .square).1.shapes .square).current_level = .intermediate ∧
      ((((advance_level init_progress .square).1.shapes .square).levels .intermediate).unlocked
        = true)) ∧
    (advance_level init_progress .square).1.shapes .circle = init_progress.shapes .circle := by
  have h := (C6_theorem init_progress .square).2.2.1 rfl
  exact ⟨⟨h.1, h.2.1⟩, (C6_theorem init_progress .square).2.1 .circle (by decide)⟩

/-- C7: `needs_help` is true exactly when (attempts ≥ required and
accuracy < 0.4) or the last three recorded answers were all wrong; the last
conjunct shows the new progress state after a submission is a function of the
grading and `can_advance` alone, so the needs-help signal never alters
progression state. -/
theorem C7_theorem (p : Progress) (s : Shape) (l : Level) :
    ((check_level_progress p s l).needs_help = true ↔
      (((LEVELS l).questions_required ≤ ((p.shapes s).levels l).attempts ∧
          levelAccuracy ((p.shapes s).levels l) < 2/5) ∨
        last3AllWrong ((p.shapes s).levels l).questions)) ∧
    (last3AllWrong ((p.shapes s).levels l).questions →
      (check_level_progress p s l).needs_help = true) ∧
    (∀ st q u, st.current_question = some q →
      (submit_answer (.numeric u) st).state.progress =
        (if (decide (evalError u q.correct_answer ≤ 2/100) &&
              (check_level_progress
                (update_progress st.progress q.shape q.level
                  (decide (evalError u q.correct_answer ≤ 2/100))
                  { q with user_answer := some u })
                q.shape q.level).can_advance) = true
          then (advance_level
              (update_progress st.progress q.shape q.level
                (decide (evalError u q.correct_answer ≤ 2/100))
                { q with user_answer := some u })
              q.shape).1
          else update_progress st.progress q.shape q.level
            (decide (evalError u q.correct_answer ≤ 2/100))
            { q with user_answer := some u })) := by
  refine ⟨needs_help_iff p s l, ?_, ?_⟩
  · intro h
    exact (needs_help_iff p s l).mpr (Or.inr h)
  · intro st q u hq
    rw [submit_numeric_some st q u hq]

/-- C7 witness: at 5 attempts with 1 correct the signal fires, and the
state-update law at a concrete session. -/
theorem C7_witness :
    ((check_level_progress (sampleState 5 1).progress Shape.square Level.beginner).needs_help
      = true) ∧
    ((submit_answer (.numeric 100) (sampleState 0 0)).state.progress =
      (if (decide (evalError 100 sampleQuestion.correct_answer ≤ 2/100) &&
            (check_level_progress
              (update_progress (sampleState 0 0).progress sampleQuestion.shape
                sampleQuestion.level
                (decide (evalError 100 sampleQuestion.correct_answer ≤ 2/100))
                { sampleQuestion with user_answer := some (100 : ℚ) })
              sampleQuestion.shape sampleQuestion.level).can_advance) = true
        then (advance_level
            (update_progress (sampleState 0 0).progress sampleQuestion.shape
              sampleQuestion.level
              (decide (evalError 100 sampleQuestion.correct_answer ≤ 2/100))
              { sampleQuestion with user_answer := some (100 : ℚ) })
            sampleQuestion.shape).1
        else update_progress (sampleState 0 0).progress sampleQuestion.shape
          sampleQuestion.level
          (decide (evalError 100 sampleQuestion.correct_answer ≤ 2/100))
          { sampleQuestion with user_answer := some (100 : ℚ) })) := by
  have hld : (((sampleState 5 1).progress.shapes Shape.square).levels Level.beginner)
      = { unlocked := true, attempts := 5, correct := 1, completed := false
          questions := [] } := rfl
  constructor
  · refine ((C7_theorem (sampleState 5 1).progress Shape.square Level.beginner).1).mpr
      (Or.inl ⟨?_, ?_⟩)
    · rw [hld]
      decide
    · rw [hld]
      norm_num [levelAccuracy]
  · exact (C7_theorem init_progress Shape.square Level.beginner).2.2 (sampleState 0 0)
      sampleQuestion 100 rfl

/-- C8: resetting one shape restores exactly that shape's progress to the
initial structure (beginner unlocked with zero counts and empty history,
intermediate and expert locked, not mastered) and changes nothing else: other
shapes and the global counters and history are untouched. -/
theorem C8_theorem (p : Progress) (s : Shape) :
    (reset_shape (shapeName s) p).shapes s = create_shape_progress ∧
    create_shape_progress =
      { current_level := .beginner
        beginner := { unlocked := true, attempts := 0, correct := 0, completed := false
                      questions := [] }
        intermediate := { unlocked := false, attempts := 0, correct := 0, completed := false
                          questions := [] }
        expert := { unlocked := false, attempts := 0, correct := 0, completed := false
                    questions := [] }
        mastered := false } ∧
    (∀ s', s' ≠ s → (reset_shape (shapeName s) p).shapes s' = p.shapes s') ∧
    (reset_shape (shapeName s) p).total_attempts = p.total_attempts ∧
    (reset_shape (shapeName s) p).correct_answers = p.correct_answers ∧
    (reset_shape (shapeName s) p).wrong_answers = p.wrong_answers ∧
    (reset_shape (shapeName s) p).history = p.history := by
  have hp : parseShape (shapeName s) = some s := by cases s <;> rfl
  have hr : reset_shape (shapeName s) p = p.setShape s create_shape_progress := by
    rw [reset_shape, hp]
  rw [hr]
  refine ⟨?_, rfl, ?_, setShape_total_attempts p s _, setShape_correct_answers p s _,
    setShape_wrong_answers p s _, setShape_history p s _⟩
  · rw [shapes_setShape]
    simp
  · intro s' h
    rw [shapes_setShape, if_neg h]

/-- C8 witness: resetting square leaves circle untouched. -/
theorem C8_witness :
    (reset_shape (shapeName .square) (sampleState 4 4).progress).shapes .square
        = create_shape_progress ∧
    (reset_shape (shapeName .square) (sampleState 4 4).progress).shapes .circle
        = (sampleState 4 4).progress.shapes .circle :=
  ⟨(C8_theorem (sampleState 4 4).progress .square).1,
    (C8_theorem (sampleState 4 4).progress .square).2.2.1 .circle (by decide)⟩

theorem update_preserves_inv (p : Progress) (s : Shape) (l : Level) (b : Bool) (q : Question)
    (h : progressInv p) : progressInv (update_progress p s l b q) := by
  intro s' l'
  by_cases hsl : s' = s ∧ l' = l
  · obtain ⟨rfl, rfl⟩ := hsl
    rw [update_progress_level_self]
    dsimp only
    have hc := h s' l'
    split_ifs <;> omega
  · rw [update_progress_frame p s l b q s' l' hsl]
    exact h s' l'

theorem advance_preserves_inv (p : Progress) (s : Shape) (h : progressInv p) :
    progressInv (advance_level p s).1 := by
  intro s' l'
  rw [(advance_level_counts p s s' l').1, (advance_level_counts p s s' l').2]
  exact h s' l'

theorem reset_preserves_inv (name : String) (p : Progress) (h : progressInv p) :
    progressInv (reset_shape name p) := by
  unfold reset_shape
  cases hp : parseShape name with
  | none => exact h
  | some s0 =>
    show progressInv (p.setShape s0 create_shape_progress)
    intro s' l'
    rw [shapes_setShape]
    split_ifs
    · cases l' <;> simp [create_shape_progress, ShapeProgress.levels]
    · exact h s' l'

theorem submit_preserves_inv (payload : AnswerPayload) (st : SessionState)
    (h : progressInv st.progress) : progressInv (submit_answer payload st).state.progress := by
  cases payload with
  | missingKey => exact h
  | nonNumeric s => exact h
  | numeric u =>
    cases hq : st.current_question with
    | none =>
      rw [submit_numeric_none st u hq]
      exact h
    | some q =>
      rw [submit_numeric_some st q u hq]
      dsimp only
      split_ifs with hd
      · exact advance_preserves_inv _ _ (update_preserves_inv _ _ _ _ _ h)
      · exact update_preserves_inv _ _ _ _ _ h

/-- C9: the per-shape per-level invariant `correct ≤ attempts` holds initially
and is preserved by progress updates, level advancement, per-shape reset, and
the whole submit-answer transition (full reset re-creates the initial state). -/
theorem C9_theorem :
    progressInv init_progress ∧
    (∀ p s l b q, progressInv p → progressInv (update_progress p s l b q)) ∧
    (∀ p s, progressInv p → progressInv (advance_level p s).1) ∧
    (∀ name p, progressInv p → progressInv (reset_shape name p)) ∧
    (∀ payload st, progressInv st.progress →
      progressInv (submit_answer payload st).state.progress) := by
  refine ⟨by decide, update_preserves_inv, advance_preserves_inv, reset_preserves_inv,
    submit_preserves_inv⟩

/-- C9 witness: the invariant after one update on the fresh state. -/
theorem C9_witness :
    progressInv (update_progress init_progress Shape.square Level.beginner true
      sampleQuestion) :=
  C9_theorem.2.1 init_progress Shape.square Level.beginner true sampleQuestion (by decide)

theorem pyRoundInt_ge (x : ℚ) : x - 1/2 ≤ (pyRoundInt x : ℚ) := by
  simp only [pyRoundInt]
  have hf : (⌊x⌋ : ℚ) ≤ x := Int.floor_le x
  have hf1 : x < ⌊x⌋ + 1 := Int.lt_floor_add_one x
  split_ifs with h1 h2 h3 <;> push_cast <;> linarith

theorem pyRound_ge_half (d : ℕ) (x : ℚ) (hx : 1 ≤ x) : 1/2 ≤ pyRound d x := by
  unfold pyRound
  have hpow : (0:ℚ) < 10 ^ d := by positivity
  have hpow1 : (1:ℚ) ≤ 10 ^ d := by
    exact_mod_cast Nat.one_le_pow d 10 (by norm_num)
  rw [le_div_iff₀ hpow]
  have h := pyRoundInt_ge (x * 10 ^ d)
  have h2 : 1 * 10 ^ d ≤ x * 10 ^ d := mul_le_mul_of_nonneg_right hx (le_of_lt hpow)
  linarith

theorem pyRound_pos (d : ℕ) (x : ℚ) (hx : 1 ≤ x) : 0 < pyRound d x :=
  lt_of_lt_of_le (by norm_num) (pyRound_ge_half d x hx)

theorem mathPi_pos : 0 < mathPi := by
  norm_num [mathPi]

/-- C10: for every valid shape at every level, with raw draws inside the
code's uniform ranges the generated `correct_answer` is strictly positive, so
the grading division is by a nonzero number and the absolute-error fallback
branch is unreachable for generated questions. -/
theorem C10_theorem (name : String) (level : Level) (u1 u2 u : ℚ)
    (hname : name ∈ validShapeNames) (hdraw : drawsOk name level u1 u2) :
    ∃ q, generate_question name level u1 u2 = some q ∧ 0 < q.correct_answer ∧
      q.correct_answer ≠ 0 ∧
      evalError u q.correct_answer = |u - q.correct_answer| / q.correct_answer := by
  have hone : ∀ lvl : Level, (1:ℚ) ≤ (questionRanges lvl).lo := by
    intro lvl
    cases lvl <;> norm_num [questionRanges]
  have honehalf : ∀ lvl : Level, (1:ℚ) ≤ (questionRanges lvl).lo * (1/2) := by
    intro lvl
    cases lvl <;> norm_num [questionRanges]
  simp only [validShapeNames, List.mem_cons, List.not_mem_nil, or_false] at hname
  unfold drawsOk at hdraw
  obtain ⟨hsq, hre, htr, hci⟩ := hdraw
  rcases hname with rfl | rfl | rfl | rfl
  · have hu1 : (1:ℚ) ≤ u1 := le_trans (hone level) (hsq rfl).1
    have hp := pyRound_pos (questionRanges level).decimal_places u1 hu1
    have hpos : (0:ℚ) < pyRound (questionRanges level).decimal_places u1 ^ 2 := pow_pos hp 2
    exact ⟨_, rfl, hpos, ne_of_gt hpos, by rw [evalError, if_pos (ne_of_gt hpos)]⟩
  · have hu1 : (1:ℚ) ≤ u1 := le_trans (hone level) (hre rfl).1.1
    have hu2 : (1:ℚ) ≤ u2 := le_trans (hone level) (hre rfl).2.1
    have hp1 := pyRound_pos (questionRanges level).decimal_places u1 hu1
    have hp2 := pyRound_pos (questionRanges level).decimal_places u2 hu2
    have hpos := mul_pos hp1 hp2
    exact ⟨_, rfl, hpos, ne_of_gt hpos, by rw [evalError, if_pos (ne_of_gt hpos)]⟩
  · have hu1 : (1:ℚ) ≤ u1 := le_trans (hone level) (htr rfl).1.1
    have hu2 : (1:ℚ) ≤ u2 := le_trans (hone level) (htr rfl).2.1
    have hp1 := pyRound_pos (questionRanges level).decimal_places u1 hu1
    have hp2 := pyRound_pos (questionRanges level).decimal_places u2 hu2
    have hpos : (0:ℚ) < pyRound (questionRanges level).decimal_places u1 *
        pyRound (questionRanges level).decimal_places u2 / 2 :=
      div_pos (mul_pos hp1 hp2) (by norm_num)
    exact ⟨_, rfl, hpos, ne_of_gt hpos, by rw [evalError, if_pos (ne_of_gt hpos)]⟩
  · have hu1 : (1:ℚ) ≤ u1 := le_trans (honehalf level) (hci rfl).1
    have hp := pyRound_pos (questionRanges level).decimal_places u1 hu1
    have hpos : (0:ℚ) < mathPi * pyRound (questionRanges level).decimal_places u1 ^ 2 :=
      mul_pos mathPi_pos (pow_pos hp 2)
    exact ⟨_, rfl, hpos, ne_of_gt hpos, by rw [evalError, if_pos (ne_of_gt hpos)]⟩

/-- C10 witness: a beginner square question from the draw 3. -/
theorem C10_witness :
    ∃ q, generate_question "square" Level.beginner 3 0 = some q ∧ 0 < q.correct_answer ∧
      q.correct_answer ≠ 0 ∧
      evalError 7 q.correct_answer = |7 - q.correct_answer| / q.correct_answer :=
  C10_theorem "square" Level.beginner 3 0 7 (by simp [validShapeNames])
    (by
      unfold drawsOk
      refine ⟨fun h => ?_, fun h => ?_, fun h => ?_, fun h => ?_⟩
      · norm_num [questionRanges]
      · simp at h
      · simp at h
      · simp at h)

end GeoITS
